import Mathlib

/-!
Verification of `src/components/model-viewer.tsx` (meshgen.io).

The file embeds the viewer's core logic in Lean:
* the light-drag controller (`handleMouseDown` / `handleMouseMove`,
  source lines 209-249), with exact rational arithmetic in place of JS floats;
* the colour-temperature conversion `tempToColor` (source lines 567-595),
  with real arithmetic (`Real.log`, `Real.rpow`) in place of JS floats;
* the material / lifecycle manager (`handleModelLoad`, `toggleTextures`,
  source lines 107-173), with materials identified by numeric ids standing
  for JS object identity;
* the retry loader `ModelLoader` (source lines 30-98), both as a sequential
  attempt chain and as an event-step machine covering URL changes, timers,
  cancellation flags and unmount.
-/

namespace ModelViewer

/-! ### Light state and the drag controller (source lines 18-28, 201-258) -/

/-- `LightState` from source lines 18-22: light position, intensity and
colour temperature.  JS floats are modelled by exact rationals. -/
structure LightState where
  position : ℚ × ℚ × ℚ
  intensity : ℚ
  temperature : ℚ
deriving DecidableEq

/-- `INITIAL_LIGHT_STATE` from source lines 24-28. -/
def INITIAL_LIGHT_STATE : LightState :=
  { position := (2, 2, 2), intensity := 1, temperature := 6500 }

/-- The two drag-mode flags `isDragging` / `isAdjusting` (source lines 203-204). -/
structure DragFlags where
  dragging : Bool
  adjusting : Bool
deriving DecidableEq

/-- `handleMouseDown` (source lines 210-220): with the shift key up nothing
happens; with shift down, alt selects the adjusting mode, otherwise the
dragging mode.  (The orbit-controls side effect is outside this model.) -/
def handleMouseDown (shiftKey altKey : Bool) (f : DragFlags) : DragFlags :=
  if !shiftKey then f
  else if altKey then { f with adjusting := true }
  else { f with dragging := true }

/-- `handleMouseMove`'s state update (source lines 221-243), phrased on the
pointer deltas `dx = clientX - prev.x`, `dy = clientY - prev.y`.  When
neither flag is set the state is unchanged; when `isAdjusting` is set the
temperature and intensity are updated and clamped; otherwise the position
moves. -/
def handleMouseMove (f : DragFlags) (prev : LightState) (dx dy : ℚ) : LightState :=
  if !f.dragging && !f.adjusting then prev
  else
    let scaledDx := dx * (5 / 100)
    let scaledDy := dy * (5 / 100)
    if f.adjusting then
      { prev with
        temperature := max 2000 (min 10000 (prev.temperature + scaledDx * 100))
        intensity := max 0 (min 6 (prev.intensity - scaledDy)) }
    else
      { prev with
        position :=
          (prev.position.1 + scaledDx, prev.position.2.1 - scaledDy, prev.position.2.2) }

/-- The clamp written in the spec, in the `max lo (min hi x)` composition the
drag handler uses (`Math.max(lo, Math.min(hi, x))`, source lines 229-230). -/
def clampQ (lo hi x : ℚ) : ℚ := max lo (min hi x)

/-! ### Material / lifecycle manager (source lines 100-198)

Materials are identified by numeric ids standing for JS object identity;
`matteId` is the identity of the shared `matteMaterial.current` instance
(source lines 109-115).  A mesh carries its local geometry as the list of
Y coordinates of its vertices (only the vertical axis matters to the
claims); a group carries its own Y position, and world-space Y of a point
is `posY + p`. -/

/-- A drawable primitive: identity, current material (by identity), the two
shadow flags set during the load traversal, and local vertex Y coordinates. -/
structure Mesh where
  id : ℕ
  material : ℕ
  castShadow : Bool
  receiveShadow : Bool
  ptsY : List ℚ
deriving DecidableEq

/-- The loaded scene graph root (`THREE.Group`): its Y position and its
drawable primitives. -/
structure SceneGroup where
  posY : ℚ
  meshes : List Mesh
deriving DecidableEq

/-- Identity of the shared matte material instance (`matteMaterial.current`,
source lines 109-115).  In the running program this instance is freshly
constructed, so a loaded mesh's original material never aliases it; theorems
that need this carry it as a hypothesis. -/
def matteId : ℕ := 0

/-- The `materials.current.set(obj, obj.material)` recording pass of
`handleModelLoad` (source line 123), as an association list keyed by mesh
identity. -/
def recordMaterials (g : SceneGroup) : List (ℕ × ℕ) :=
  g.meshes.map fun m => (m.id, m.material)

/-- The mutation the load traversal applies to each mesh (source lines
124-126): swap in the matte material and set both shadow flags. -/
def swapToMatte (g : SceneGroup) : SceneGroup :=
  { g with
    meshes := g.meshes.map fun m =>
      { m with material := matteId, castShadow := true, receiveShadow := true } }

/-- All local vertex Y coordinates of the graph. -/
def allPtsY (g : SceneGroup) : List ℚ := (g.meshes.map Mesh.ptsY).flatten

/-- All world-space vertex Y coordinates of the graph. -/
def worldPtsY (g : SceneGroup) : List ℚ := (allPtsY g).map fun p => g.posY + p

/-- `new THREE.Box3().setFromObject(loadedScene).min.y` (source line 129):
the minimum world-space Y, `none` for empty geometry (where the JS `Box3`
yields a non-finite `+Infinity` minimum, outside this rational model). -/
def boxMinY (g : SceneGroup) : Option ℚ := (worldPtsY g).min?

/-- `handleModelLoad` (source lines 118-139): record every mesh's original
material, swap in the shared matte material and set shadow flags, then
translate the graph by `offsetY = -box.min.y`.  Returns the prepared graph
together with the recorded material map. -/
def handleModelLoad (g : SceneGroup) : SceneGroup × List (ℕ × ℕ) :=
  let mmap := recordMaterials g
  let g1 := swapToMatte g
  match boxMinY g1 with
  | some mn => ({ g1 with posY := g1.posY + -mn }, mmap)
  | none => (g1, mmap)

/-- `materials.current.get(obj)` (source line 163): look up the recorded
original material of a mesh by identity. -/
def lookupMat (mmap : List (ℕ × ℕ)) (i : ℕ) : Option ℕ :=
  (mmap.find? fun p => p.1 == i).map Prod.snd

/-- The per-mesh body of `toggleTextures` (source lines 159-166): a mesh
holding the matte material gets `materials.current.get(obj) || obj.material`
(the recorded original, falling back to the current material when the map
has no entry); any other mesh gets the matte material. -/
def toggleMesh (mmap : List (ℕ × ℕ)) (m : Mesh) : Mesh :=
  { m with
    material :=
      if m.material = matteId then (lookupMat mmap m.id).getD m.material
      else matteId }

/-- `toggleTextures` (source lines 157-167) applied to a loaded graph. -/
def toggleTextures (mmap : List (ℕ × ℕ)) (g : SceneGroup) : SceneGroup :=
  { g with meshes := g.meshes.map (toggleMesh mmap) }

/-- The `ModelContent` state the toggle callback closes over: the current
model (`null` before a load finishes) and the recorded material map. -/
structure ContentState where
  model : Option SceneGroup
  mmap : List (ℕ × ℕ)
deriving DecidableEq

/-- `toggleTextures` as the component-level callback (source lines 157-167):
`if (!model) return` — with no model it leaves everything untouched. -/
def toggleTexturesC (s : ContentState) : ContentState :=
  match s.model with
  | none => s
  | some g => { s with model := some (toggleTextures s.mmap g) }

/-! ### The retry loader `ModelLoader` (source lines 30-98)

Two views of the same code.  `runChain` is the sequential attempt chain on a
fixed URL: one `GLTFLoader.load` call per attempt, a retry timer of
`1000 * retryCount` ms after a failure while `retryCount < maxRetries`, and
the terminal error once `retryCount` reaches `maxRetries`.  `loaderStep` is
the event-step machine that also covers URL changes, the per-effect
`canceled` flag, the pending retry timers and unmount. -/

/-- `maxRetries` (source line 42). -/
def maxRetries : ℕ := 3

/-- Outcome of one `GLTFLoader.load` call: success with a parsed scene, or
failure carrying `some message` when the error is an `Error` instance and
`none` otherwise (source line 62). -/
inductive LoadOutcome where
  | ok (scene : ℕ)
  | fail (errMessage : Option String)
deriving DecidableEq

/-- Observable behaviour of one attempt chain: the scheduled retry delays in
milliseconds, the `onLoad` invocations and the `onError` invocations, each
in order. -/
structure ChainResult where
  delays : List ℕ
  onLoadCalls : List ℕ
  onErrorCalls : List String
deriving DecidableEq

/-- The attempt chain of `ModelLoader` (source lines 44-70) on a fixed URL,
starting from retry counter `r`: a success delivers the scene to `onLoad`
and ends the chain; a failure with `r < maxRetries` schedules a retry after
`1000 * r` ms and continues with `r + 1`; a failure with `r ≥ maxRetries`
reports `err.message` (or the fallback string) to `onError` and schedules
nothing further. -/
def runChainFrom (r : ℕ) : List LoadOutcome → ChainResult
  | [] => ⟨[], [], []⟩
  | .ok m :: _ => ⟨[], [m], []⟩
  | .fail e :: rest =>
      if r < maxRetries then
        let res := runChainFrom (r + 1) rest
        ⟨1000 * r :: res.delays, res.onLoadCalls, res.onErrorCalls⟩
      else
        ⟨[], [], [e.getD "Failed to load model"]⟩

/-- The attempt chain started at the initial retry counter 0 (source
line 39). -/
def runChain (outcomes : List LoadOutcome) : ChainResult := runChainFrom 0 outcomes

/-- The `ModelLoader` component state together with the deferred work the
effect leaves behind.  `liveGen` counts effect runs; the load started by an
older run has had its closure's `canceled` flag set by the effect cleanup,
so only a completion of the load of the latest run (`inFlight = some gen`)
may act.  `pendingTimers` counts scheduled retry timers; the source's
`clearTimeout` cleanup is returned from the load error callback (source
line 60), where the return value is discarded, so nothing ever clears a
pending timer. -/
structure LoaderState where
  retryCount : ℕ
  model : Option ℕ
  modelError : Option String
  url : String
  liveGen : ℕ
  inFlight : Option ℕ
  pendingTimers : ℕ
  mounted : Bool
deriving DecidableEq

/-- State after mounting `ModelLoader` at `u`: counters zero (source
line 39) and the first effect run's load in flight. -/
def initLoader (u : String) : LoaderState :=
  { retryCount := 0, model := none, modelError := none, url := u,
    liveGen := 0, inFlight := some 0, pendingTimers := 0, mounted := true }

/-- The deferred events that can reach `ModelLoader`: completion of the load
started by effect run `gen`, a retry timer firing, a change of the `url`
prop, and unmount. -/
inductive LoaderEvent where
  | completeOk (gen : ℕ) (scene : ℕ)
  | completeFail (gen : ℕ) (errMessage : Option String)
  | timerFire
  | urlChange (u : String)
  | unmount
deriving DecidableEq

/-- One event of the `ModelLoader` effect machine (source lines 44-70).
A completion acts only if the component is mounted and the load belongs to
the latest effect run (the closure's `canceled` flag is still false):
success stores the model; failure either schedules a retry timer
(`retryCount < maxRetries`) or stores and reports the terminal error.  A
firing timer on a mounted component increments `retryCount`, which re-runs
the effect: the previous load is cancelled and a new load starts.  A URL
change re-runs the effect the same way but leaves `retryCount` alone, and
does not clear pending timers (the source's `clearTimeout` is dead code).
After unmount, completions and timers mutate nothing. -/
def loaderStep (s : LoaderState) (e : LoaderEvent) : LoaderState :=
  match e with
  | .completeOk g m =>
      if s.mounted && (s.inFlight == some g) then
        { s with model := some m, inFlight := none }
      else s
  | .completeFail g msg =>
      if s.mounted && (s.inFlight == some g) then
        if s.retryCount < maxRetries then
          { s with inFlight := none, pendingTimers := s.pendingTimers + 1 }
        else
          { s with inFlight := none,
                   modelError := some (msg.getD "Failed to load model") }
      else s
  | .timerFire =>
      if s.pendingTimers = 0 then s
      else if s.mounted then
        { s with pendingTimers := s.pendingTimers - 1,
                 retryCount := s.retryCount + 1,
                 liveGen := s.liveGen + 1,
                 inFlight := some (s.liveGen + 1) }
      else { s with pendingTimers := s.pendingTimers - 1 }
  | .urlChange u =>
      if s.mounted then
        { s with url := u, liveGen := s.liveGen + 1, inFlight := some (s.liveGen + 1) }
      else s
  | .unmount =>
      if s.mounted then { s with mounted := false, inFlight := none } else s

/-- Run the loader machine from a fresh mount at `u` over a list of events. -/
def runLoader (u : String) (es : List LoaderEvent) : LoaderState :=
  es.foldl loaderStep (initLoader u)

/-- Whether an event is a change of the `url` prop. -/
def isUrlChange : LoaderEvent → Bool
  | .urlChange _ => true
  | _ => false

/-- The retry-counter invariant of a single-URL session: the counter never
exceeds `maxRetries`, at most one retry timer is pending, and a pending
timer was scheduled by a failure that found `retryCount < maxRetries` and
left no load in flight. -/
def LoaderInv (s : LoaderState) : Prop :=
  s.retryCount ≤ maxRetries ∧ s.pendingTimers ≤ 1 ∧
    (s.pendingTimers = 1 → s.retryCount < maxRetries ∧ s.inFlight = none)

/-! ### Colour-temperature conversion (source lines 567-595) -/

/-- `tempToColor` (source lines 567-595), as the `(red, green, blue)` triple
the source interpolates into its `rgb(...)` string.  JS `Math.log` is
`Real.log`, `Math.pow` is `Real.rpow`. -/
noncomputable def tempToColor (kelvin : ℝ) : ℝ × ℝ × ℝ :=
  let k := kelvin / 100
  if k ≤ 66 then
    (255,
     min 255 (max 0 (99.4708025861 * Real.log k - 161.1195681661)),
     if k ≤ 19 then 0
     else min 255 (max 0 (138.5177312231 * Real.log (k - 10) - 305.0447927307)))
  else
    (min 255 (max 0 (329.698727446 * (k - 60) ^ (-0.1332047592 : ℝ))),
     min 255 (max 0 (288.1221695283 * (k - 60) ^ (-0.0755148492 : ℝ))),
     255)

/-- The clamp of the spec text over the reals. -/
noncomputable def clampR (lo hi x : ℝ) : ℝ := min hi (max lo x)

/-- The piecewise black-body approximation exactly as the spec states it
(spec section 4.3, "Color derivation"): internal value `v = kelvin/100`,
split at `v ≤ 66`, with the stated coefficients and clamps. -/
noncomputable def tempToColorSpec (kelvin : ℝ) : ℝ × ℝ × ℝ :=
  let v := kelvin / 100
  if v ≤ 66 then
    (255,
     clampR 0 255 (99.4708025861 * Real.log v - 161.1195681661),
     if v ≤ 19 then 0
     else clampR 0 255 (138.5177312231 * Real.log (v - 10) - 305.0447927307))
  else
    (clampR 0 255 (329.698727446 * (v - 60) ^ (-0.1332047592 : ℝ)),
     clampR 0 255 (288.1221695283 * (v - 60) ^ (-0.0755148492 : ℝ)),
     255)

end ModelViewer

namespace ModelViewer

/-- Helper: a value clamped by `min 255 (max 0 ·)` lies in `[0, 255]`. -/
lemma clamp255_mem (e : ℝ) : 0 ≤ min 255 (max 0 e) ∧ min 255 (max 0 e) ≤ 255 :=
  ⟨le_min (by norm_num) (le_max_left 0 e), min_le_left 255 _⟩

/-- C1: the temperature-to-colour conversion agrees with the spec's piecewise
black-body approximation at every input temperature. -/
theorem tempToColor_matches_spec (kelvin : ℝ) :
    tempToColor kelvin = tempToColorSpec kelvin := by
  simp only [tempToColor, tempToColorSpec, clampR]

/-- C8: for every temperature (in particular every temperature in the
`[2000, 10000]` Kelvin domain) each derived colour channel lies in
`[0, 255]`. -/
theorem tempToColor_channels_in_range (kelvin : ℝ)
    (h1 : 2000 ≤ kelvin) (h2 : kelvin ≤ 10000) :
    (0 ≤ (tempToColor kelvin).1 ∧ (tempToColor kelvin).1 ≤ 255) ∧
    (0 ≤ (tempToColor kelvin).2.1 ∧ (tempToColor kelvin).2.1 ≤ 255) ∧
    (0 ≤ (tempToColor kelvin).2.2 ∧ (tempToColor kelvin).2.2 ≤ 255) := by
  simp only [tempToColor]
  split
  · refine ⟨by norm_num, clamp255_mem _, ?_⟩
    split
    · norm_num
    · exact clamp255_mem _
  · exact ⟨clamp255_mem _, clamp255_mem _, by norm_num⟩

/-- Witness for C8 at 6500 K. -/
theorem tempToColor_channels_in_range_witness :
    (2000 : ℝ) ≤ 6500 ∧ (6500 : ℝ) ≤ 10000 ∧
    ((0 ≤ (tempToColor 6500).1 ∧ (tempToColor 6500).1 ≤ 255) ∧
     (0 ≤ (tempToColor 6500).2.1 ∧ (tempToColor 6500).2.1 ≤ 255) ∧
     (0 ≤ (tempToColor 6500).2.2 ∧ (tempToColor 6500).2.2 ≤ 255)) :=
  ⟨by norm_num, by norm_num,
   tempToColor_channels_in_range 6500 (by norm_num) (by norm_num)⟩

/-- C7: in adjust mode every pointer move of `(dx, dy)` sets
`temperature := clamp(temperature + dx*0.05*100, 2000, 10000)` and
`intensity := clamp(intensity - dy*0.05, 0, 6)` and leaves the position
unchanged. -/
theorem adjust_mode_update (f : DragFlags) (prev : LightState) (dx dy : ℚ)
    (h : f.adjusting = true) :
    (handleMouseMove f prev dx dy).temperature
        = clampQ 2000 10000 (prev.temperature + dx * (5 / 100) * 100) ∧
    (handleMouseMove f prev dx dy).intensity
        = clampQ 0 6 (prev.intensity - dy * (5 / 100)) ∧
    (handleMouseMove f prev dx dy).position = prev.position := by
  simp [handleMouseMove, h, clampQ]

/-- Witness for C7: from intensity 1, temperature 6500, a move of
`(dx, dy) = (10, -20)` in adjust mode yields temperature 6550 and
intensity 2. -/
theorem adjust_mode_update_witness :
    (handleMouseMove ⟨false, true⟩ INITIAL_LIGHT_STATE 10 (-20)).temperature = 6550 ∧
    (handleMouseMove ⟨false, true⟩ INITIAL_LIGHT_STATE 10 (-20)).intensity = 2 ∧
    (handleMouseMove ⟨false, true⟩ INITIAL_LIGHT_STATE 10 (-20)).position
      = INITIAL_LIGHT_STATE.position := by
  obtain ⟨h1, h2, h3⟩ := adjust_mode_update ⟨false, true⟩ INITIAL_LIGHT_STATE 10 (-20) rfl
  refine ⟨?_, ?_, h3⟩
  · rw [h1]; norm_num [clampQ, INITIAL_LIGHT_STATE]
  · rw [h2]; norm_num [clampQ, INITIAL_LIGHT_STATE]

/-- Helper: the characterisation of `List.min?` over the rationals. -/
lemma minq_eq_some_iff (xs : List ℚ) (a : ℚ) :
    xs.min? = some a ↔ a ∈ xs ∧ ∀ b ∈ xs, a ≤ b := by
  have : Std.Antisymm fun x1 x2 : ℚ => x1 ≤ x2 := ⟨@fun x y h h' => le_antisymm h h'⟩
  apply List.min?_eq_some_iff
  · exact fun a => le_refl a
  · exact fun a b => min_choice a b
  · exact fun a b c => le_min_iff

/-- Helper: the material swap does not move any geometry. -/
lemma allPtsY_swapToMatte (g : SceneGroup) : allPtsY (swapToMatte g) = allPtsY g := by
  simp only [allPtsY, swapToMatte, List.map_map]
  rfl

/-- C9: for every loaded graph with nonempty geometry, `handleModelLoad`
leaves the graph's lowest world-space point at Y = 0. -/
theorem ground_alignment_min_y_zero (g : SceneGroup) (h : allPtsY g ≠ []) :
    boxMinY (handleModelLoad g).1 = some 0 := by
  set g1 := swapToMatte g with hg1
  have hpts : allPtsY g1 = allPtsY g := allPtsY_swapToMatte g
  have hne : worldPtsY g1 ≠ [] := by
    simp [worldPtsY, hpts, h]
  obtain ⟨mn, hmn⟩ : ∃ mn, boxMinY g1 = some mn := by
    rcases hb : boxMinY g1 with _ | mn
    · exact absurd (List.min?_eq_none_iff.mp hb) hne
    · exact ⟨mn, rfl⟩
  obtain ⟨hmem, hle⟩ := (minq_eq_some_iff _ _).mp hmn
  have hload : (handleModelLoad g).1 = { g1 with posY := g1.posY + -mn } := by
    simp only [handleModelLoad, ← hg1, hmn]
  rw [hload]
  apply (minq_eq_some_iff _ _).mpr
  constructor
  · obtain ⟨p, hp, hpe⟩ := List.mem_map.mp hmem
    apply List.mem_map.mpr
    exact ⟨p, hp, by simp only at hpe ⊢; linarith⟩
  · intro b hb
    obtain ⟨q, hq, hqe⟩ := List.mem_map.mp hb
    have := hle (g1.posY + q) (List.mem_map.mpr ⟨q, hq, rfl⟩)
    simp only at hqe
    linarith

/-- Concrete graph for the ground-alignment witness. -/
def alignDemo : SceneGroup := ⟨5, [⟨0, 3, false, false, [-2, 7]⟩]⟩

/-- Witness for C9 on a concrete graph. -/
theorem ground_alignment_min_y_zero_witness :
    allPtsY alignDemo ≠ [] ∧ boxMinY (handleModelLoad alignDemo).1 = some 0 :=
  ⟨by decide, ground_alignment_min_y_zero alignDemo (by decide)⟩

/-- Helper: applying the toggle twice to one mesh restores it, provided a
mesh not holding the matte material holds exactly its recorded original. -/
lemma toggleMesh_toggleMesh (mmap : List (ℕ × ℕ)) (m : Mesh)
    (h : m.material ≠ matteId → lookupMat mmap m.id = some m.material) :
    toggleMesh mmap (toggleMesh mmap m) = m := by
  obtain ⟨i, mat, cs, rs, pts⟩ := m
  by_cases hmat : mat = matteId
  · subst hmat
    rcases hl : lookupMat mmap i with _ | v
    · simp [toggleMesh, hl]
    · by_cases hv : v = matteId
      · subst hv; simp [toggleMesh, hl]
      · simp [toggleMesh, hl, hv]
  · have hl := h hmat
    simp only at hl
    simp [toggleMesh, hmat, hl]

/-- C2 (amended): toggling twice returns every primitive's material to the
material it held immediately before the two toggles, provided every
primitive not holding the matte material holds exactly its recorded
original.  (From the freshly loaded state this restores the shared matte
material, not the recorded original.) -/
theorem toggle_twice_involution (mmap : List (ℕ × ℕ)) (g : SceneGroup)
    (h : ∀ m ∈ g.meshes, m.material ≠ matteId → lookupMat mmap m.id = some m.material) :
    toggleTextures mmap (toggleTextures mmap g) = g := by
  obtain ⟨posY, meshes⟩ := g
  simp only [toggleTextures, List.map_map, SceneGroup.mk.injEq, true_and]
  calc meshes.map (toggleMesh mmap ∘ toggleMesh mmap)
      = meshes.map id := by
        apply List.map_congr_left
        intro m hm
        exact toggleMesh_toggleMesh mmap m (h m hm)
    _ = meshes := List.map_id meshes

/-- Concrete one-mesh graph (original material 1, distinct from the matte
material 0) used by the C2 counterexample and witness. -/
def toggleDemo : SceneGroup := ⟨0, [⟨0, 1, false, false, [0]⟩]⟩

/-- C2 counterexample: on a freshly loaded model, toggling twice leaves every
mesh holding the shared matte material, not the original recorded in the
material map (here recorded original 1, final material `matteId = 0`). -/
theorem toggle_twice_counterexample :
    ((toggleTextures (handleModelLoad toggleDemo).2
        (toggleTextures (handleModelLoad toggleDemo).2
          (handleModelLoad toggleDemo).1)).meshes.map Mesh.material = [matteId]) ∧
    lookupMat (handleModelLoad toggleDemo).2 0 = some 1 ∧ matteId ≠ 1 := by
  decide

/-- Witness for C2 (amended) on a concrete graph holding its original
(non-matte) material. -/
theorem toggle_twice_involution_witness :
    toggleTextures [(0, 1)] (toggleTextures [(0, 1)] toggleDemo) = toggleDemo :=
  toggle_twice_involution [(0, 1)] toggleDemo
    (by intro m hm; fin_cases hm <;> decide)

/-- C10: invoking the toggle callback while no model is loaded is a no-op on
the component state. -/
theorem toggle_before_load_noop (s : ContentState) (h : s.model = none) :
    toggleTexturesC s = s := by
  obtain ⟨mdl, mmap⟩ := s
  cases h
  rfl

/-- Witness for C10: the empty state. -/
theorem toggle_before_load_noop_witness :
    toggleTexturesC ⟨none, []⟩ = ⟨none, []⟩ :=
  toggle_before_load_noop ⟨none, []⟩ rfl

/-- C5: a chain that fails three times and succeeds on the fourth attempt
never calls `onError`, calls `onLoad` exactly once, and schedules exactly
the retry delays 0 ms, 1000 ms and 2000 ms before attempts 2, 3 and 4. -/
theorem load_three_failures_then_success (e1 e2 e3 : Option String) (m : ℕ) :
    runChain [.fail e1, .fail e2, .fail e3, .ok m]
      = ⟨[0, 1000, 2000], [m], []⟩ := rfl

/-- C6: a chain that fails four consecutive times calls `onError` exactly
once with the final underlying error's message, and schedules no retry
beyond the three delays. -/
theorem load_four_failures_onError_once (e1 e2 e3 : Option String) (msg : String) :
    runChain [.fail e1, .fail e2, .fail e3, .fail (some msg)]
      = ⟨[0, 1000, 2000], [], [msg]⟩ := rfl

/-- Helper: one non-`urlChange` event preserves the retry-counter
invariant. -/
lemma loaderStep_inv (s : LoaderState) (e : LoaderEvent)
    (hs : LoaderInv s) (he : isUrlChange e = false) :
    LoaderInv (loaderStep s e) := by
  obtain ⟨h1, h2, h3⟩ := hs
  cases e with
  | completeOk g m =>
      simp only [loaderStep]
      split
      · exact ⟨h1, h2, fun ht => ⟨(h3 ht).1, rfl⟩⟩
      · exact ⟨h1, h2, h3⟩
  | completeFail g msg =>
      simp only [loaderStep]
      split
      · rename_i hc
        simp only [Bool.and_eq_true, beq_iff_eq] at hc
        have ht0 : s.pendingTimers = 0 := by
          by_contra hne
          have h11 : s.pendingTimers = 1 := by omega
          have := (h3 h11).2
          rw [hc.2] at this
          exact Option.noConfusion this
        split
        · rename_i hr
          refine ⟨h1, ?_, fun _ => ⟨hr, rfl⟩⟩
          show s.pendingTimers + 1 ≤ 1
          omega
        · refine ⟨h1, ?_, ?_⟩
          · show s.pendingTimers ≤ 1
            omega
          · intro ht
            have ht' : s.pendingTimers = 1 := ht
            exact (False.elim (by omega))
      · exact ⟨h1, h2, h3⟩
  | timerFire =>
      simp only [loaderStep]
      split
      · exact ⟨h1, h2, h3⟩
      · rename_i ht
        have ht1 : s.pendingTimers = 1 := by omega
        have hr := (h3 ht1).1
        split
        · refine ⟨?_, ?_, ?_⟩
          · show s.retryCount + 1 ≤ maxRetries
            omega
          · show s.pendingTimers - 1 ≤ 1
            omega
          · intro hq
            have hq' : s.pendingTimers - 1 = 1 := hq
            exact (False.elim (by omega))
        · refine ⟨h1, ?_, ?_⟩
          · show s.pendingTimers - 1 ≤ 1
            omega
          · intro hq
            have hq' : s.pendingTimers - 1 = 1 := hq
            exact (False.elim (by omega))
  | urlChange u =>
      simp [isUrlChange] at he
  | unmount =>
      simp only [loaderStep]
      split
      · exact ⟨h1, h2, fun ht => ⟨(h3 ht).1, rfl⟩⟩
      · exact ⟨h1, h2, h3⟩

/-- Helper: the invariant holds along any fold over non-`urlChange`
events. -/
lemma runLoader_inv_aux (es : List LoaderEvent) :
    ∀ s : LoaderState, LoaderInv s → (∀ e ∈ es, isUrlChange e = false) →
      LoaderInv (es.foldl loaderStep s) := by
  induction es with
  | nil => intro s hs _; exact hs
  | cons e rest ih =>
      intro s hs hall
      exact ih (loaderStep s e) (loaderStep_inv s e hs (hall e (List.mem_cons_self e rest)))
        fun e' he' => hall e' (List.mem_cons_of_mem e he')

/-- C3 (amended): the retry counter starts at 0, is a natural number and
never exceeds `maxRetries = 3` in any session whose events never change the
source URL.  (A URL change does not reset it; see the counterexample.) -/
theorem retry_attempt_bounded (u : String) (es : List LoaderEvent)
    (h : ∀ e ∈ es, isUrlChange e = false) :
    (runLoader u es).retryCount ≤ maxRetries := by
  have hinit : LoaderInv (initLoader u) := by
    refine ⟨by simp [initLoader, maxRetries], by simp [initLoader], ?_⟩
    intro ht
    simp [initLoader] at ht
  exact (runLoader_inv_aux es (initLoader u) hinit h).1

/-- The event trace of a full single-URL session that exhausts all three
retries and then fails terminally. -/
def fullRetryTrace : List LoaderEvent :=
  [.completeFail 0 none, .timerFire, .completeFail 1 none, .timerFire,
   .completeFail 2 none, .timerFire, .completeFail 3 (some "boom")]

/-- Witness for C3 (amended) on the full retry trace. -/
theorem retry_attempt_bounded_witness :
    (∀ e ∈ fullRetryTrace, isUrlChange e = false) ∧
    (runLoader "a" fullRetryTrace).retryCount ≤ maxRetries :=
  ⟨by decide, retry_attempt_bounded "a" fullRetryTrace (by decide)⟩

/-- C3 counterexample: after one failure and one retry the counter is 1; a
subsequent URL change leaves it at 1 instead of resetting it to 0. -/
theorem retry_reset_counterexample :
    (runLoader "a" [.completeFail 0 none, .timerFire, .urlChange "b"]).url = "b" ∧
    (runLoader "a" [.completeFail 0 none, .timerFire, .urlChange "b"]).retryCount = 1 ∧
    (1 : ℕ) ≠ 0 := by
  decide

/-- C4 failing input: a failure at url "a" schedules a retry timer; the URL
then changes to "b".  The timer is still pending after the change (nothing
clears it: the `clearTimeout` cleanup is returned from the load error
callback, where it is discarded), and when it fires it still mutates state,
incrementing the retry counter of the new URL's session. -/
theorem retry_timer_survives_url_change :
    (runLoader "a" [.completeFail 0 none, .urlChange "b"]).pendingTimers = 1 ∧
    (loaderStep (runLoader "a" [.completeFail 0 none, .urlChange "b"])
        .timerFire).retryCount
      = (runLoader "a" [.completeFail 0 none, .urlChange "b"]).retryCount + 1 := by
  decide

end ModelViewer
